import Mathlib

/-
Shallow embedding of `web_ui.py` (TradingAgents dashboard).

The module under study runs a long analysis in a background worker thread
that reports progress through one JSON status file per session
(`analyze_stock_async`), while the UI controller starts jobs
(`start_analysis`) and polls them (`check_analysis_status`).  Completed
runs are archived by `save_analysis` and read back by
`load_analysis_content`.

The embedding below models:
  - Python string primitives used by the code (`strip`, `upper`, `in`);
  - the opaque collaborators (ChromaDB reset, engine construction,
    `propagate`, filesystem writes) through an `Env` record that fixes the
    outcome of every fallible call and every sampled timestamp;
  - each status-file write of the worker as an element of an ordered
    write trace (`WorkerRun.statusWrites`), the archive writes and the
    scratch download file likewise;
  - the controller functions as explicit state passing over `SysState`
    (job store contents plus archive contents), so that read-only
    behaviour is a provable property, not an assumption.
-/

/-! ### Python string primitives -/

/-- Whitespace as recognised by `str.strip` (ASCII subset). -/
def pySpace (c : Char) : Bool :=
  c = ' ' || c = '\t' || c = '\n' || c = '\r'

/-- Model of Python `str.strip()`. -/
def pyStrip (s : String) : String :=
  ⟨((s.data.dropWhile pySpace).reverse.dropWhile pySpace).reverse⟩

/-- Model of Python `str.upper()`. -/
def pyUpper (s : String) : String :=
  ⟨s.data.map Char.toUpper⟩

/-- Predicate `isLeadOf pat l` holds when `pat` is an initial segment of `l`. -/
def isLeadOf [BEq α] : List α → List α → Bool
  | [], _ => true
  | _ :: _, [] => false
  | a :: as, b :: bs => a == b && isLeadOf as bs

/-- Predicate `occursIn pat l` holds when `pat` occurs contiguously inside `l`. -/
def occursIn (pat : List Char) : List Char → Bool
  | [] => isLeadOf pat []
  | c :: t => isLeadOf pat (c :: t) || occursIn pat t

/-- Model of Python `sub in s` on strings. -/
def pyIn (sub s : String) : Bool :=
  occursIn sub.data s.data

/-- Containment `hasSub s sub`: `sub` occurs contiguously in `s` (specification-side
substring containment, used to state what a rendered report contains). -/
def hasSub (s sub : String) : Prop :=
  ∃ p q : String, s = p ++ (sub ++ q)

/-! ### The opaque analysis output (`graph_output`, `decision`) -/

/-- One entry of `graph_output['messages']`: `content` is `none` when the
attribute is missing, `tool_calls` is `none` when the attribute is
missing and `some l` when present with list value `l`. -/
structure Msg where
  content : Option String
  tool_calls : Option (List Unit)
deriving DecidableEq

/-- The first element returned by `ta.propagate`: either a dict carrying a
`messages` key, or anything else (modelled by its `str` rendering). -/
inductive GraphOutput where
  | withMessages (messages : List Msg)
  | other (rendered : String)
deriving DecidableEq

/-- The text contributed by one message to `analysis_text` (lines 91-96 of
the source: skip missing/empty content, skip tool-call messages, keep only
contents longer than 100 characters not mentioning `HumanMessage`). -/
def msgChunk (m : Msg) : String :=
  match m.content with
  | none => ""
  | some c =>
    if c = "" then ""
    else
      match m.tool_calls with
      | some (_ :: _) => ""
      | _ =>
        if 100 < c.length ∧ pyIn "HumanMessage" c = false then
          "\n\n" ++ c ++ "\n\n---\n"
        else ""

/-- The `analysis_text` accumulation loop over `messages`. -/
def buildAnalysisText (messages : List Msg) : String :=
  messages.foldl (fun acc m => acc ++ msgChunk m) ""

/-- The `analysis_text` as computed from `graph_output` (lines 88-98). -/
def computeAnalysisText : GraphOutput → String
  | .withMessages msgs => buildAnalysisText msgs
  | .other rendered => rendered

/-! ### Environment: outcomes of fallible collaborators and timestamps -/

/-- A Python exception, reduced to what the handler uses: `str(e)` and
`traceback.format_exc()`. -/
structure Exc where
  msg : String
  trace : String
deriving DecidableEq

/-- Fixes the outcome of every opaque or fallible call the worker makes,
and the rendering of every sampled `datetime.now()`. -/
structure Env where
  /-- exception raised (and internally swallowed) by `clear_chromadb_collections` -/
  clearExc : Option Exc
  /-- exception raised by `TradingAgentsGraph(debug=True, config=config)` -/
  engineExc : Option Exc
  /-- outcome of `ta.propagate(ticker, analysis_date)` -/
  propagateResult : Except Exc (GraphOutput × String)
  /-- rendering of `datetime.now().strftime(...)` sampled inside `display_result` -/
  genTimeDisplay : String
  /-- rendering of `datetime.now().strftime(...)` sampled inside `save_result` -/
  genTimeSave : String
  /-- rendering of `datetime.now().strftime("%Y%m%d_%H%M%S")` sampled in `save_analysis` -/
  archiveStamp : String
  /-- rendering of `datetime.now().isoformat()` sampled in `save_analysis` -/
  archiveIso : String
  /-- exception raised inside `save_analysis` file writes -/
  saveExc : Option Exc
  /-- exception raised writing the `/tmp` download artifact -/
  tempExc : Option Exc
  /-- rendering of `datetime.now().isoformat()` sampled in the worker error handler -/
  errorIso : String

/-! ### Records written by the worker -/

/-- A Job Status Record as serialised to `STATUS_DIR/<session>.json`:
each field is `some v` exactly when the corresponding key is present in
the dumped dict. -/
structure StatusRecord where
  status : String
  ticker : Option String
  progress : Option Nat
  message : Option String
  result : Option String
  download_path : Option String
  error : Option String
deriving DecidableEq

/-- An Archive Record: the `.json`/`.md` file pair written by
`save_analysis` under `ANALYSIS_DIR`, keyed by its filename stem. -/
structure ArchiveRecord where
  filename : String
  ticker : String
  analysis_date : String
  timestamp : String
  result : String
deriving DecidableEq

/-- The observable effects of one worker execution: the ordered sequence
of status-file writes (all to `statusKey`, the session whose file the
worker opened at line 60), the archive writes, and the scratch download
file writes. -/
structure WorkerRun where
  statusKey : String
  statusWrites : List StatusRecord
  archiveWrites : List ArchiveRecord
  tempWrites : List (String × String)
deriving DecidableEq

/-- A `running` progress snapshot (lines 66-86). -/
def runningRec (ticker : String) (progress : Nat) (message : String) : StatusRecord :=
  { status := "running", ticker := some ticker, progress := some progress,
    message := some message, result := none, download_path := none, error := none }

/-- The terminal `complete` record (lines 154-162). -/
def completeRec (ticker display_result temp_path : String) : StatusRecord :=
  { status := "complete", ticker := some ticker, progress := some 100,
    message := some "Analysis complete!", result := some display_result,
    download_path := some temp_path, error := none }

/-- The rendered error report of the worker handler (lines 175-193). -/
def error_report (ticker analysis_date error_message error_details timestamp dataDirStr : String) : String :=
  "# ⚠️ Analysis Failed for " ++ ticker ++
  "\n\n## Error Summary\n**" ++ error_message ++
  "**\n\n---\n\n## Detailed Error Trace\n" ++ error_details ++
  "\n\n---\n\n## Debug Information\n\n**Ticker:** " ++ ticker ++
  "  \n**Date:** " ++ analysis_date ++
  "  \n**Timestamp:** " ++ timestamp ++
  "  \n**Storage Path:** " ++ dataDirStr ++ "\n"

/-- The terminal `error` record (lines 195-201): note it carries no
`progress` and no `message` key. -/
def errorRec (dataDirStr ticker analysis_date timestamp : String) (e : Exc) : StatusRecord :=
  { status := "error", ticker := some ticker, progress := none, message := none,
    result := some (error_report ticker analysis_date e.msg e.trace timestamp dataDirStr),
    download_path := none, error := some e.msg }

/-- Template `display_result` (lines 100-126), with the generation timestamp
supplied by the environment. -/
def mkDisplayResult (ticker analysis_date genTime decision analysis_text : String) : String :=
  "# 📈 Trading Analysis: " ++ ticker ++
  "\n\n**Analysis Date:** " ++ analysis_date ++
  "  \n**Generated:** " ++ genTime ++
  "\n\n---\n\n## 🎯 Final Trading Decision\n\n### **" ++ decision ++
  "**\n\n---\n\n## 📊 Multi-Agent Analysis\n\n" ++ analysis_text ++
  "\n\n---\n\n## 💾 Storage\n\n✓ Analysis saved to persistent storage\n\n---\n\n*Powered by TradingAgents Multi-Agent LLM Framework*\n"

/-- Template `save_result` (lines 128-144). -/
def mkSaveResult (ticker analysis_date genTime decision analysis_text : String) : String :=
  "# 📈 Trading Analysis: " ++ ticker ++
  "\n\n**Analysis Date:** " ++ analysis_date ++
  "  \n**Generated:** " ++ genTime ++
  "\n\n---\n\n## 🎯 Final Trading Decision\n\n### **" ++ decision ++
  "**\n\n---\n\n## 📊 Multi-Agent Analysis\n\n" ++ analysis_text ++ "\n"

/-- The Storage-confirmation and footer block by which `display_result`
extends `save_result`. -/
def storageFooter : String :=
  "\n---\n\n## 💾 Storage\n\n✓ Analysis saved to persistent storage\n\n---\n\n*Powered by TradingAgents Multi-Agent LLM Framework*\n"

/-- Function `save_analysis` (lines 42-56): returns the Python return value and
the archive records it managed to write.  The internal `try` swallows the
write failure, so the caller only ever sees `true` or `false`. -/
def save_analysis (env : Env) (ticker analysis_date result_text : String) : Bool × List ArchiveRecord :=
  match env.saveExc with
  | some _ => (false, [])
  | none =>
    (true,
     [{ filename := ticker ++ "_" ++ analysis_date ++ "_" ++ env.archiveStamp,
        ticker := ticker, analysis_date := analysis_date,
        timestamp := env.archiveIso, result := result_text }])

/-- Function `analyze_stock_async` (lines 58-201) as a trace of effects.  The
status file is keyed by `session_id`; every fallible step after the
first write is inside the `try`, and the handler appends the single
terminal `error` record.  `clear_chromadb_collections` catches its own
exception (lines 22-40) and therefore never diverts control flow. -/
def analyze_stock_async (env : Env) (dataDirStr : String) (ticker0 analysis_date session_id : String) : WorkerRun :=
  let ticker := pyUpper (pyStrip ticker0)
  let r10 := runningRec ticker 10 "Starting analysis..."
  let r20 := runningRec ticker 20 "Clearing ChromaDB collections..."
  let r30 := runningRec ticker 30 "Initializing trading agents..."
  match env.engineExc with
  | some e =>
    { statusKey := session_id,
      statusWrites := [r10, r20, r30, errorRec dataDirStr ticker analysis_date env.errorIso e],
      archiveWrites := [], tempWrites := [] }
  | none =>
    let r40 := runningRec ticker 40 ("Running multi-agent analysis for " ++ ticker ++ "...")
    match env.propagateResult with
    | .error e =>
      { statusKey := session_id,
        statusWrites := [r10, r20, r30, r40, errorRec dataDirStr ticker analysis_date env.errorIso e],
        archiveWrites := [], tempWrites := [] }
    | .ok (graph_output, decision) =>
      let r90 := runningRec ticker 90 "Formatting results..."
      let analysis_text := computeAnalysisText graph_output
      let display_result := mkDisplayResult ticker analysis_date env.genTimeDisplay decision analysis_text
      let save_result := mkSaveResult ticker analysis_date env.genTimeSave decision analysis_text
      let saved := save_analysis env ticker analysis_date save_result
      let temp_path := "/tmp/" ++ ticker ++ "_" ++ analysis_date ++ "_latest.md"
      match env.tempExc with
      | some e =>
        { statusKey := session_id,
          statusWrites := [r10, r20, r30, r40, r90, errorRec dataDirStr ticker analysis_date env.errorIso e],
          archiveWrites := saved.2, tempWrites := [] }
      | none =>
        { statusKey := session_id,
          statusWrites := [r10, r20, r30, r40, r90, completeRec ticker display_result temp_path],
          archiveWrites := saved.2,
          tempWrites := [(temp_path, display_result)] }

/-! ### The filesystem-backed store seen by the controller -/

/-- State of one session's status file as the controller finds it:
absent, present but not JSON-parseable, or a parsed record. -/
inductive FileState where
  | missing
  | unreadable
  | record (r : StatusRecord)
deriving DecidableEq

/-- The store shared through the filesystem: `STATUS_DIR` (one file per
session) and `ANALYSIS_DIR` (the archive). -/
structure SysState where
  jobs : String → FileState
  archive : List ArchiveRecord

/-- A `gr.update` on the download button: visibility, and the value set
(or `none` when no value is supplied). -/
structure DlUpdate where
  visible : Bool
  value : Option String
deriving DecidableEq

/-- Update `gr.update(visible=False)`. -/
def hiddenDl : DlUpdate :=
  { visible := false, value := none }

/-- Idle view (lines 205-210). -/
def readyView : String :=
  "### 🚀 Ready to Analyze!\n\nEnter a stock ticker and click **Analyze Stock**."

/-- View for a missing status file (lines 214-219). -/
def initializingView : String :=
  "### ⏳ Initializing analysis...\n\nClick **Check Status** in 10 seconds."

/-- View for an unparseable status file (lines 224-229). -/
def loadingView : String :=
  "### ⏳ Loading status...\n\nClick **Check Status** again."

/-- Progress view (line 236). -/
def runningView (ticker : String) (progress : Nat) (message : String) : String :=
  "### ⏳ Analysis in Progress: " ++ ticker ++
  "\n\n**Progress:** " ++ toString progress ++
  "%\n\n**Status:** " ++ message ++
  "\n\n*Click **Check Status** in 10-20 seconds to see results*"

/-- Fallback view for an unrecognized status value (line 259). -/
def unknownStatusView : String :=
  "### Unknown status"

/-- Rejection view of `start_analysis` (line 268). -/
def invalidInputView : String :=
  "# ⚠️ Error: Invalid Input\n\nPlease enter a valid stock ticker symbol."

/-- Acknowledgement view of `start_analysis` (line 278). -/
def startedView (tickerUpper : String) : String :=
  "### ⏳ Analysis Started: " ++ tickerUpper ++
  "\n\n**Analysis running in background...**\n\nClick **Check Status** in 30-60 seconds to see results."

/-- Function `check_analysis_status` (lines 203-262), with the store passed and
returned explicitly: every branch of the source only reads, so every
branch of the embedding returns the incoming store.  A `None` or empty
session id is falsy in Python and takes the idle branch. -/
def check_analysis_status (st : SysState) (session_id : Option String) :
    (String × DlUpdate × Option String) × SysState :=
  match session_id with
  | none => ((readyView, hiddenDl, none), st)
  | some sid =>
    if sid = "" then ((readyView, hiddenDl, some sid), st)
    else
      match st.jobs sid with
      | .missing => ((initializingView, hiddenDl, some sid), st)
      | .unreadable => ((loadingView, hiddenDl, some sid), st)
      | .record status =>
        if status.status = "running" then
          ((runningView (status.ticker.getD "...") (status.progress.getD 0)
              (status.message.getD "Processing..."), hiddenDl, some sid), st)
        else if status.status = "complete" then
          ((status.result.getD "Analysis complete but result missing",
            { visible := true, value := status.download_path }, none), st)
        else if status.status = "error" then
          ((status.result.getD "Unknown error occurred", hiddenDl, none), st)
        else
          ((unknownStatusView, hiddenDl, some sid), st)

/-- The worker invocation scheduled by `threading.Thread(...)` at line
274: the raw arguments handed to `analyze_stock_async`. -/
structure PendingJob where
  ticker : String
  date : String
  session_id : String
deriving DecidableEq

/-- Function `start_analysis` (lines 264-281): validates the ticker, and on
success only schedules the worker (second component) — the store is
returned untouched on every branch, as in the source, and the fresh
`uuid4` is supplied as `freshSid`. -/
def start_analysis (ticker date : String) (freshSid : String) (st : SysState) :
    (String × DlUpdate × Option String) × Option PendingJob × SysState :=
  if ticker = "" ∨ pyStrip ticker = "" then
    ((invalidInputView, hiddenDl, none), none, st)
  else
    ((startedView (pyUpper ticker), hiddenDl, some freshSid),
     some { ticker := ticker, date := date, session_id := freshSid }, st)

/-- The store after a finished worker run: the session's status file
holds the last record written, and the archive grew by the worker's
archive writes.  Keys other than the worker's own are untouched. -/
def applyWorkerRun (run : WorkerRun) (st : SysState) : SysState :=
  { jobs := fun k =>
      if k = run.statusKey then
        match run.statusWrites.getLast? with
        | some r => .record r
        | none => st.jobs k
      else st.jobs k,
    archive := st.archive ++ run.archiveWrites }

/-- Function `load_analysis_content` (lines 297-308): retrieve an archive record
by filename stem and return its stored `result` text. -/
def load_analysis_content (st : SysState) (filename : Option String) : String :=
  match filename with
  | none => "### Select an analysis from the dropdown to view it."
  | some fn =>
    if fn = "" then "### Select an analysis from the dropdown to view it."
    else
      match st.archive.find? (fun a => a.filename == fn) with
      | some data => data.result
      | none => "### Analysis file not found"

/-! ### Derived notions used by the statements -/

/-- A record is terminal when its status is `complete` or `error`. -/
def isTerminal (r : StatusRecord) : Bool :=
  r.status = "complete" || r.status = "error"

/-- The progress values of the `running` snapshots of a write trace, in
write order (reading each with the `.get('progress', 0)` default the
poller uses). -/
def runningProgressList (ws : List StatusRecord) : List Nat :=
  (ws.filter (fun r => r.status = "running")).map (fun r => r.progress.getD 0)

/-- The first exception to escape a step of the worker's `try` body,
if any: engine construction, then `propagate`, then the download-artifact
write.  (`clear_chromadb_collections` and `save_analysis` swallow their
own exceptions and so never appear here.) -/
def firstWorkerExc (env : Env) : Option Exc :=
  match env.engineExc with
  | some e => some e
  | none =>
    match env.propagateResult with
    | .error e => some e
    | .ok _ => env.tempExc

/-! ### Concrete instances used to evaluate the theorems -/

/-- An execution in which every collaborator succeeds. -/
def envOk : Env :=
  { clearExc := none, engineExc := none,
    propagateResult := .ok (.other "RAWOUT", "BUY"),
    genTimeDisplay := "2025-10-15 12:00:00", genTimeSave := "2025-10-15 12:00:00",
    archiveStamp := "20251015_120000", archiveIso := "2025-10-15T12:00:00",
    saveExc := none, tempExc := none, errorIso := "2025-10-15T12:00:01" }

/-- An execution in which `propagate` raises. -/
def envErr : Env :=
  { clearExc := none, engineExc := none,
    propagateResult := .error { msg := "boom", trace := "TracebackX" },
    genTimeDisplay := "2025-10-15 12:00:00", genTimeSave := "2025-10-15 12:00:00",
    archiveStamp := "20251015_120000", archiveIso := "2025-10-15T12:00:00",
    saveExc := none, tempExc := none, errorIso := "2025-10-15T12:00:01" }

/-- An execution in which only the archive write fails. -/
def envSaveFail : Env :=
  { clearExc := none, engineExc := none,
    propagateResult := .ok (.other "RAWOUT", "BUY"),
    genTimeDisplay := "2025-10-15 12:00:00", genTimeSave := "2025-10-15 12:00:00",
    archiveStamp := "20251015_120000", archiveIso := "2025-10-15T12:00:00",
    saveExc := some { msg := "disk full", trace := "TracebackY" }, tempExc := none,
    errorIso := "2025-10-15T12:00:01" }

/-- A store with no status files and an empty archive. -/
def stEmpty : SysState :=
  { jobs := fun _ => .missing, archive := [] }

/-- A store whose session `s4` holds a parsed `complete` record. -/
def recComplete : StatusRecord :=
  { status := "complete", ticker := some "SPY", progress := some 100,
    message := some "Analysis complete!", result := some "RESULT TEXT",
    download_path := some "/tmp/SPY_2025-10-15_latest.md", error := none }

/-- A store whose session `s4e` holds a parsed `error` record. -/
def recError : StatusRecord :=
  { status := "error", ticker := some "SPY", progress := none, message := none,
    result := some "ERROR TEXT", download_path := none, error := some "boom" }

/-- Store used to evaluate the poller on terminal records. -/
def stTerminal : SysState :=
  { jobs := fun k =>
      if k = "s4" then .record recComplete
      else if k = "s4e" then .record recError
      else .missing,
    archive := [] }

/-- A reference exception used to evaluate the error-path theorems. -/
def excBoom : Exc :=
  { msg := "boom", trace := "TracebackX" }

/-- Conclusion of claim C3 at given inputs: the write trace contains
exactly one terminal record, it is last, it is the `error` record, and
its rendered `result` contains the exception message, the diagnostic
trace, the (normalized) ticker, the date, the handler timestamp and the
storage path. -/
def c3Conclusion (env : Env) (dd t d sid : String) (e : Exc) : Prop :=
  (analyze_stock_async env dd t d sid).statusWrites.filter isTerminal
      = [errorRec dd (pyUpper (pyStrip t)) d env.errorIso e]
  ∧ (analyze_stock_async env dd t d sid).statusWrites.getLast?
      = some (errorRec dd (pyUpper (pyStrip t)) d env.errorIso e)
  ∧ (errorRec dd (pyUpper (pyStrip t)) d env.errorIso e).status = "error"
  ∧ (errorRec dd (pyUpper (pyStrip t)) d env.errorIso e).result
      = some (error_report (pyUpper (pyStrip t)) d e.msg e.trace env.errorIso dd)
  ∧ (errorRec dd (pyUpper (pyStrip t)) d env.errorIso e).error = some e.msg
  ∧ hasSub (error_report (pyUpper (pyStrip t)) d e.msg e.trace env.errorIso dd) e.msg
  ∧ hasSub (error_report (pyUpper (pyStrip t)) d e.msg e.trace env.errorIso dd) e.trace
  ∧ hasSub (error_report (pyUpper (pyStrip t)) d e.msg e.trace env.errorIso dd) (pyUpper (pyStrip t))
  ∧ hasSub (error_report (pyUpper (pyStrip t)) d e.msg e.trace env.errorIso dd) d
  ∧ hasSub (error_report (pyUpper (pyStrip t)) d e.msg e.trace env.errorIso dd) env.errorIso
  ∧ hasSub (error_report (pyUpper (pyStrip t)) d e.msg e.trace env.errorIso dd) dd

/-- Conclusion of claim C4: what the poller returns on a parsed terminal
record. -/
def c4Conclusion (st : SysState) (sid : String) (r : StatusRecord) : Prop :=
  (r.status = "complete" → ∀ res, r.result = some res →
      (check_analysis_status st (some sid)).1
        = (res, { visible := true, value := r.download_path }, none))
  ∧ (r.status = "error" → ∀ res, r.result = some res →
      (check_analysis_status st (some sid)).1 = (res, hiddenDl, none))

/-- The record format asserted by claim C7 for every worker write:
status in the three-value set, ticker present, progress present and
bounded, message present, plus the terminal extras. -/
def c7RecordClaim (r : StatusRecord) : Prop :=
  (r.status = "running" ∨ r.status = "complete" ∨ r.status = "error")
  ∧ r.ticker.isSome = true
  ∧ (∃ p, r.progress = some p ∧ p ≤ 100)
  ∧ r.message.isSome = true
  ∧ (r.status = "complete" → r.result.isSome = true ∧ r.download_path.isSome = true)
  ∧ (r.status = "error" → r.result.isSome = true ∧ r.error.isSome = true)

/-- The record format the worker actually guarantees (claim C7 amended):
`error` records carry `result` and `error` but no `progress` and no
`message`. -/
def c7AmendedRecord (tk : String) (r : StatusRecord) : Prop :=
  (r.status = "running" ∨ r.status = "complete" ∨ r.status = "error")
  ∧ r.ticker = some tk
  ∧ ((r.status = "running" ∨ r.status = "complete") →
      (∃ p, r.progress = some p ∧ p ≤ 100) ∧ r.message.isSome = true)
  ∧ (r.status = "complete" → r.result.isSome = true ∧ r.download_path.isSome = true)
  ∧ (r.status = "error" →
      r.result.isSome = true ∧ r.error.isSome = true ∧ r.progress = none ∧ r.message = none)

/-- Conclusion of claim C8: the job still ends `complete`, nothing was
archived, and `save_analysis` reported the swallowed failure as `false`. -/
def c8Conclusion (env : Env) (dd t d sid : String) : Prop :=
  (∃ r, (analyze_stock_async env dd t d sid).statusWrites.getLast? = some r
      ∧ r.status = "complete")
  ∧ (analyze_stock_async env dd t d sid).archiveWrites = []
  ∧ ∀ rt : String, (save_analysis env (pyUpper (pyStrip t)) d rt).1 = false

/-- Conclusion of claim C9: the controller schedules without writing, the
poller never writes, and the worker writes only its own session's file. -/
def c9Conclusion (t d sid : String) (st : SysState) : Prop :=
  (start_analysis t d sid st).2.2 = st
  ∧ (start_analysis t d sid st).2.1
      = some { ticker := t, date := d, session_id := sid }
  ∧ (start_analysis t d sid st).1.2.2 = some sid
  ∧ (∀ (st2 : SysState) (s : Option String), (check_analysis_status st2 s).2 = st2)
  ∧ ∀ (env : Env) (dd : String),
      (analyze_stock_async env dd t d sid).statusKey = sid
      ∧ ∀ (stW : SysState) (k : String), k ≠ sid →
          (applyWorkerRun (analyze_stock_async env dd t d sid) stW).jobs k = stW.jobs k

/-- Conclusion of claim C10: on a fully successful run whose two
generation timestamps render identically, the displayed/downloadable text
is the archived text extended by the storage footer, hence not identical
to it, and an archive retrieval returns the shorter archived text. -/
def c10Conclusion (env : Env) (dd t d sid : String) : Prop :=
  ∃ cr ar,
    (analyze_stock_async env dd t d sid).statusWrites.getLast? = some cr
    ∧ (analyze_stock_async env dd t d sid).archiveWrites = [ar]
    ∧ cr.status = "complete"
    ∧ cr.result = some (ar.result ++ storageFooter)
    ∧ cr.result ≠ some ar.result
    ∧ (analyze_stock_async env dd t d sid).tempWrites
        = [("/tmp/" ++ pyUpper (pyStrip t) ++ "_" ++ d ++ "_latest.md",
            ar.result ++ storageFooter)]
    ∧ ∀ st : SysState, st.archive = [] →
        load_analysis_content (applyWorkerRun (analyze_stock_async env dd t d sid) st)
          (some ar.filename) = ar.result

/-! ### Helper lemmas -/

/-- The poller never modifies the store: every branch returns it as is. -/
theorem check_state_fixed (st : SysState) (s : Option String) :
    (check_analysis_status st s).2 = st := by
  match s with
  | none => rfl
  | some sid =>
    by_cases h : sid = ""
    · simp [check_analysis_status, h]
    · cases hj : st.jobs sid with
      | missing => simp [check_analysis_status, h, hj]
      | unreadable => simp [check_analysis_status, h, hj]
      | record r =>
        simp only [check_analysis_status, h, hj, if_neg]
        split_ifs <;> rfl

/-- Equation: `display_result` is `save_result` followed by the storage footer,
whenever both render the same generation timestamp. -/
theorem display_eq_save_append_footer (t d g dec a : String) :
    mkDisplayResult t d g dec a = mkSaveResult t d g dec a ++ storageFooter := by
  have hx : ("\n" : String) ++ storageFooter =
      "\n\n---\n\n## 💾 Storage\n\n✓ Analysis saved to persistent storage\n\n---\n\n*Powered by TradingAgents Multi-Agent LLM Framework*\n" := rfl
  simp only [mkDisplayResult, mkSaveResult, String.append_assoc, hx]

/-- The worker writes its own session's status file only. -/
theorem worker_writes_own_key (env : Env) (dd t d sid : String) :
    (analyze_stock_async env dd t d sid).statusKey = sid := by
  obtain ⟨ce, ee, pr, g1, g2, a1, a2, se, te, ei⟩ := env
  cases ee with
  | some e => rfl
  | none =>
    cases pr with
    | error e => rfl
    | ok v =>
      obtain ⟨go, dec⟩ := v
      cases te with
      | some e => rfl
      | none => rfl

/-- C1: once the worker has written a terminal (`complete` or `error`)
record for a session, no further write to that session's record occurs —
the terminal record is the last element of the write trace and the only
terminal one — and, the store being thereafter fixed and the poller
read-only, two successive `check_analysis_status` reads of that session
return identical content. -/
theorem c1_terminal_immutability (env : Env) (dd t d sid : String) (st : SysState) :
    ((analyze_stock_async env dd t d sid).statusWrites.filter isTerminal).length = 1
    ∧ (∃ r, (analyze_stock_async env dd t d sid).statusWrites.getLast? = some r
        ∧ isTerminal r = true)
    ∧ ((check_analysis_status
          ((check_analysis_status (applyWorkerRun (analyze_stock_async env dd t d sid) st)
              (some sid)).2) (some sid))
        = check_analysis_status (applyWorkerRun (analyze_stock_async env dd t d sid) st)
            (some sid)) := by
  refine ⟨?_, ?_, ?_⟩
  · obtain ⟨ce, ee, pr, g1, g2, a1, a2, se, te, ei⟩ := env
    cases ee with
    | some e => rfl
    | none =>
      cases pr with
      | error e => rfl
      | ok v =>
        obtain ⟨go, dec⟩ := v
        cases te with
        | some e => rfl
        | none => rfl
  · obtain ⟨ce, ee, pr, g1, g2, a1, a2, se, te, ei⟩ := env
    cases ee with
    | some e => exact ⟨_, rfl, rfl⟩
    | none =>
      cases pr with
      | error e => exact ⟨_, rfl, rfl⟩
      | ok v =>
        obtain ⟨go, dec⟩ := v
        cases te with
        | some e => exact ⟨_, rfl, rfl⟩
        | none => exact ⟨_, rfl, rfl⟩
  · rw [check_state_fixed]

/-- Executable check that a list of naturals is non-decreasing. -/
def nondecList : List Nat → Bool
  | [] => true
  | [_] => true
  | a :: b :: t => decide (a ≤ b) && nondecList (b :: t)

/-- A list passing `nondecList` is chainwise non-decreasing. -/
theorem chain_le_of_nondec (l : List Nat) (h : nondecList l = true) :
    List.Chain' (fun a b => a ≤ b) l := by
  induction l with
  | nil => simp
  | cons a t ih =>
    cases t with
    | nil => simp
    | cons b t2 =>
      simp only [nondecList, Bool.and_eq_true, decide_eq_true_eq] at h
      exact List.chain'_cons.mpr ⟨h.1, ih h.2⟩

/-- C2: within one job the progress values carried by successive status
writes are non-decreasing, and the `running` snapshots carry exactly an
initial segment of `10, 20, 30, 40, 90` (the `complete` record then
carries `100`), so any two successive reads of a running record observe
non-decreasing progress. -/
theorem c2_progress_monotone (env : Env) (dd t d sid : String) :
    List.Chain' (fun a b => a ≤ b)
      ((analyze_stock_async env dd t d sid).statusWrites.filterMap (fun r => r.progress))
    ∧ isLeadOf (runningProgressList (analyze_stock_async env dd t d sid).statusWrites)
        [10, 20, 30, 40, 90] = true := by
  obtain ⟨ce, ee, pr, g1, g2, a1, a2, se, te, ei⟩ := env
  cases ee with
  | some e => exact ⟨chain_le_of_nondec _ rfl, rfl⟩
  | none =>
    cases pr with
    | error e => exact ⟨chain_le_of_nondec _ rfl, rfl⟩
    | ok v =>
      obtain ⟨go, dec⟩ := v
      cases te with
      | some e => exact ⟨chain_le_of_nondec _ rfl, rfl⟩
      | none => exact ⟨chain_le_of_nondec _ rfl, rfl⟩

/-- The rendered error report contains the exception message, the
diagnostic trace, the ticker, the date, the timestamp and the storage
path. -/
theorem error_report_contains (tk dstr m tr ts dds : String) :
    hasSub (error_report tk dstr m tr ts dds) m
    ∧ hasSub (error_report tk dstr m tr ts dds) tr
    ∧ hasSub (error_report tk dstr m tr ts dds) tk
    ∧ hasSub (error_report tk dstr m tr ts dds) dstr
    ∧ hasSub (error_report tk dstr m tr ts dds) ts
    ∧ hasSub (error_report tk dstr m tr ts dds) dds := by
  refine ⟨⟨"# ⚠️ Analysis Failed for " ++ tk ++ "\n\n## Error Summary\n**",
      "**\n\n---\n\n## Detailed Error Trace\n" ++ tr ++
      "\n\n---\n\n## Debug Information\n\n**Ticker:** " ++ tk ++
      "  \n**Date:** " ++ dstr ++ "  \n**Timestamp:** " ++ ts ++
      "  \n**Storage Path:** " ++ dds ++ "\n", ?_⟩,
    ⟨"# ⚠️ Analysis Failed for " ++ tk ++ "\n\n## Error Summary\n**" ++ m ++
      "**\n\n---\n\n## Detailed Error Trace\n",
      "\n\n---\n\n## Debug Information\n\n**Ticker:** " ++ tk ++
      "  \n**Date:** " ++ dstr ++ "  \n**Timestamp:** " ++ ts ++
      "  \n**Storage Path:** " ++ dds ++ "\n", ?_⟩,
    ⟨"# ⚠️ Analysis Failed for ",
      "\n\n## Error Summary\n**" ++ m ++
      "**\n\n---\n\n## Detailed Error Trace\n" ++ tr ++
      "\n\n---\n\n## Debug Information\n\n**Ticker:** " ++ tk ++
      "  \n**Date:** " ++ dstr ++ "  \n**Timestamp:** " ++ ts ++
      "  \n**Storage Path:** " ++ dds ++ "\n", ?_⟩,
    ⟨"# ⚠️ Analysis Failed for " ++ tk ++ "\n\n## Error Summary\n**" ++ m ++
      "**\n\n---\n\n## Detailed Error Trace\n" ++ tr ++
      "\n\n---\n\n## Debug Information\n\n**Ticker:** " ++ tk ++ "  \n**Date:** ",
      "  \n**Timestamp:** " ++ ts ++ "  \n**Storage Path:** " ++ dds ++ "\n", ?_⟩,
    ⟨"# ⚠️ Analysis Failed for " ++ tk ++ "\n\n## Error Summary\n**" ++ m ++
      "**\n\n---\n\n## Detailed Error Trace\n" ++ tr ++
      "\n\n---\n\n## Debug Information\n\n**Ticker:** " ++ tk ++
      "  \n**Date:** " ++ dstr ++ "  \n**Timestamp:** ",
      "  \n**Storage Path:** " ++ dds ++ "\n", ?_⟩,
    ⟨"# ⚠️ Analysis Failed for " ++ tk ++ "\n\n## Error Summary\n**" ++ m ++
      "**\n\n---\n\n## Detailed Error Trace\n" ++ tr ++
      "\n\n---\n\n## Debug Information\n\n**Ticker:** " ++ tk ++
      "  \n**Date:** " ++ dstr ++ "  \n**Timestamp:** " ++ ts ++
      "  \n**Storage Path:** ", "\n", ?_⟩⟩ <;>
  simp only [error_report, String.append_assoc]

/-- C3: whenever a step of the worker's protected body raises — engine
construction, the analysis call, or persisting the download artifact —
the worker converts it into exactly one terminal `error` record, written
last, whose `result` report contains the exception's message and full
traceback together with the ticker, date, timestamp and storage-path
debug fields; nothing escapes the worker (it is a total function into
write traces). -/
theorem c3_error_capture (env : Env) (dd t d sid : String) (e : Exc)
    (h : firstWorkerExc env = some e) :
    c3Conclusion env dd t d sid e := by
  have hc := error_report_contains (pyUpper (pyStrip t)) d e.msg e.trace env.errorIso dd
  obtain ⟨ce, ee, pr, g1, g2, a1, a2, se, te, ei⟩ := env
  cases ee with
  | some e2 =>
    obtain rfl : e2 = e := by simpa [firstWorkerExc] using h
    exact ⟨rfl, rfl, rfl, rfl, rfl, hc.1, hc.2.1, hc.2.2.1, hc.2.2.2.1,
      hc.2.2.2.2.1, hc.2.2.2.2.2⟩
  | none =>
    cases pr with
    | error e2 =>
      obtain rfl : e2 = e := by simpa [firstWorkerExc] using h
      exact ⟨rfl, rfl, rfl, rfl, rfl, hc.1, hc.2.1, hc.2.2.1, hc.2.2.2.1,
        hc.2.2.2.2.1, hc.2.2.2.2.2⟩
    | ok v =>
      obtain ⟨go, dec⟩ := v
      cases te with
      | some e2 =>
        obtain rfl : e2 = e := by simpa [firstWorkerExc] using h
        exact ⟨rfl, rfl, rfl, rfl, rfl, hc.1, hc.2.1, hc.2.2.1, hc.2.2.2.1,
          hc.2.2.2.2.1, hc.2.2.2.2.2⟩
      | none => simp [firstWorkerExc] at h

/-- C3 witness: a concrete run in which `propagate` raises. -/
theorem c3_error_capture_witness :
    firstWorkerExc envErr = some excBoom
    ∧ c3Conclusion envErr "/tmp" "spy" "2025-10-15" "s3" excBoom :=
  ⟨rfl, c3_error_capture envErr "/tmp" "spy" "2025-10-15" "s3" excBoom rfl⟩

/-- C4: for a session whose status file holds a parsed record, a
`complete` status makes the poller return the stored result, expose the
download control with the stored `download_path` value, and clear the
session id; an `error` status makes it return the stored error report,
keep the download control hidden, and clear the session id. -/
theorem c4_terminal_views (st : SysState) (sid : String) (r : StatusRecord)
    (h0 : sid ≠ "") (hj : st.jobs sid = .record r) :
    c4Conclusion st sid r := by
  constructor
  · intro hc res hres
    simp [check_analysis_status, h0, hj, hc, hres]
  · intro hc res hres
    simp [check_analysis_status, h0, hj, hc, hres]

/-- C4 witness: a store holding one parsed `complete` and one parsed
`error` record, evaluated on both. -/
theorem c4_terminal_views_witness :
    (("s4" : String) ≠ "" ∧ stTerminal.jobs "s4" = .record recComplete
      ∧ c4Conclusion stTerminal "s4" recComplete)
    ∧ (("s4e" : String) ≠ "" ∧ stTerminal.jobs "s4e" = .record recError
      ∧ c4Conclusion stTerminal "s4e" recError) :=
  ⟨⟨by decide, rfl, c4_terminal_views stTerminal "s4" recComplete (by decide) rfl⟩,
   ⟨by decide, rfl, c4_terminal_views stTerminal "s4e" recError (by decide) rfl⟩⟩

/-- C5: a ticker that is empty, or empty once stripped, makes
`start_analysis` return the Invalid Input view with hidden download and
null session, schedule no worker, and leave the store (job files and
archive alike) untouched. -/
theorem c5_blank_ticker_rejected (t d sid : String) (st : SysState)
    (h : t = "" ∨ pyStrip t = "") :
    start_analysis t d sid st = ((invalidInputView, hiddenDl, none), none, st) := by
  simp [start_analysis, h]

/-- C5 witness: a whitespace-only ticker. -/
theorem c5_blank_ticker_rejected_witness :
    (("  " : String) = "" ∨ pyStrip "  " = "")
    ∧ start_analysis "  " "2025-10-15" "s5" stEmpty
        = ((invalidInputView, hiddenDl, none), none, stEmpty) :=
  ⟨Or.inr rfl, c5_blank_ticker_rejected "  " "2025-10-15" "s5" stEmpty (Or.inr rfl)⟩

/-- C6: polling a non-null session whose status file is missing yields
the transient initializing view, and one whose file cannot be parsed
yields the transient loading view; both keep the download hidden, echo
the same session id, and return normally with the store untouched. -/
theorem c6_missing_or_unreadable (st : SysState) (sid : String) (h : sid ≠ "") :
    (st.jobs sid = .missing →
      check_analysis_status st (some sid) = ((initializingView, hiddenDl, some sid), st))
    ∧ (st.jobs sid = .unreadable →
      check_analysis_status st (some sid) = ((loadingView, hiddenDl, some sid), st)) := by
  constructor
  · intro hj
    simp [check_analysis_status, h, hj]
  · intro hj
    simp [check_analysis_status, h, hj]

/-- C6 witness: an all-missing store polled with a never-submitted
session id. -/
theorem c6_missing_or_unreadable_witness :
    (("s6" : String) ≠ "")
    ∧ ((stEmpty.jobs "s6" = .missing →
        check_analysis_status stEmpty (some "s6")
          = ((initializingView, hiddenDl, some "s6"), stEmpty))
      ∧ (stEmpty.jobs "s6" = .unreadable →
        check_analysis_status stEmpty (some "s6")
          = ((loadingView, hiddenDl, some "s6"), stEmpty))) :=
  ⟨by decide, c6_missing_or_unreadable stEmpty "s6" (by decide)⟩

/-- The amended field format holds for every `running` snapshot. -/
theorem amended_of_running (tk : String) (p : Nat) (hp : p ≤ 100) (m : String) :
    c7AmendedRecord tk (runningRec tk p m) := by
  refine ⟨Or.inl rfl, rfl, fun _ => ⟨⟨p, rfl, hp⟩, rfl⟩,
    fun hcon => absurd hcon (of_decide_eq_true rfl), fun hcon => absurd hcon (of_decide_eq_true rfl)⟩

/-- The amended field format holds for the `complete` record. -/
theorem amended_of_complete (tk dr tp : String) :
    c7AmendedRecord tk (completeRec tk dr tp) := by
  refine ⟨Or.inr (Or.inl rfl), rfl, fun _ => ⟨⟨100, rfl, by decide⟩, rfl⟩,
    fun _ => ⟨rfl, rfl⟩, fun hcon => absurd hcon (of_decide_eq_true rfl)⟩

/-- The amended field format holds for the `error` record. -/
theorem amended_of_error (tk dd dstr ts : String) (e : Exc) :
    c7AmendedRecord tk (errorRec dd tk dstr ts e) := by
  refine ⟨Or.inr (Or.inr rfl), rfl, ?_, fun hcon => absurd hcon (of_decide_eq_true rfl),
    fun _ => ⟨rfl, rfl, rfl, rfl⟩⟩
  rintro (hcon | hcon) <;> exact absurd hcon (of_decide_eq_true rfl)

/-- C7 counterexample: on a run whose analysis call raises, the terminal
`error` record the worker writes has no `progress` (and no `message`)
key, refuting the claim that every written record carries a bounded
progress integer and a message. -/
theorem c7_field_claim_counterexample :
    ¬ ∀ r ∈ (analyze_stock_async envErr "/tmp" "spy" "2025-10-15" "s7").statusWrites,
        c7RecordClaim r := by
  intro h
  have hm : errorRec "/tmp" "SPY" "2025-10-15" "2025-10-15T12:00:01" excBoom
      ∈ (analyze_stock_async envErr "/tmp" "spy" "2025-10-15" "s7").statusWrites :=
    List.mem_cons_of_mem _ (List.mem_cons_of_mem _ (List.mem_cons_of_mem _
      (List.mem_cons_of_mem _ (List.mem_cons_self _ _))))
  have hc := h _ hm
  simp only [c7RecordClaim] at hc
  obtain ⟨-, -, ⟨p, hp, -⟩, -⟩ := hc
  simp [errorRec] at hp

/-- C7 amended: every record the worker writes has a status among
`running`, `complete`, `error` and the normalized ticker; `running` and
`complete` records additionally carry a progress integer at most 100 and
a message; the `complete` record carries `result` and `download_path`;
the `error` record carries `result` and `error` but neither `progress`
nor `message`. -/
theorem c7_record_fields_amended (env : Env) (dd t d sid : String) :
    ∀ r ∈ (analyze_stock_async env dd t d sid).statusWrites,
      c7AmendedRecord (pyUpper (pyStrip t)) r := by
  obtain ⟨ce, ee, pr, g1, g2, a1, a2, se, te, ei⟩ := env
  cases ee with
  | some e =>
    intro r hr
    have hr2 : r ∈ [runningRec (pyUpper (pyStrip t)) 10 "Starting analysis...",
        runningRec (pyUpper (pyStrip t)) 20 "Clearing ChromaDB collections...",
        runningRec (pyUpper (pyStrip t)) 30 "Initializing trading agents...",
        errorRec dd (pyUpper (pyStrip t)) d ei e] := hr
    simp only [List.mem_cons, List.not_mem_nil, or_false] at hr2
    rcases hr2 with rfl | rfl | rfl | rfl
    · exact amended_of_running _ 10 (by decide) _
    · exact amended_of_running _ 20 (by decide) _
    · exact amended_of_running _ 30 (by decide) _
    · exact amended_of_error _ dd d ei e
  | none =>
    cases pr with
    | error e =>
      intro r hr
      have hr2 : r ∈ [runningRec (pyUpper (pyStrip t)) 10 "Starting analysis...",
          runningRec (pyUpper (pyStrip t)) 20 "Clearing ChromaDB collections...",
          runningRec (pyUpper (pyStrip t)) 30 "Initializing trading agents...",
          runningRec (pyUpper (pyStrip t)) 40
            ("Running multi-agent analysis for " ++ pyUpper (pyStrip t) ++ "..."),
          errorRec dd (pyUpper (pyStrip t)) d ei e] := hr
      simp only [List.mem_cons, List.not_mem_nil, or_false] at hr2
      rcases hr2 with rfl | rfl | rfl | rfl | rfl
      · exact amended_of_running _ 10 (by decide) _
      · exact amended_of_running _ 20 (by decide) _
      · exact amended_of_running _ 30 (by decide) _
      · exact amended_of_running _ 40 (by decide) _
      · exact amended_of_error _ dd d ei e
    | ok v =>
      obtain ⟨go, dec⟩ := v
      cases te with
      | some e =>
        intro r hr
        have hr2 : r ∈ [runningRec (pyUpper (pyStrip t)) 10 "Starting analysis...",
            runningRec (pyUpper (pyStrip t)) 20 "Clearing ChromaDB collections...",
            runningRec (pyUpper (pyStrip t)) 30 "Initializing trading agents...",
            runningRec (pyUpper (pyStrip t)) 40
              ("Running multi-agent analysis for " ++ pyUpper (pyStrip t) ++ "..."),
            runningRec (pyUpper (pyStrip t)) 90 "Formatting results...",
            errorRec dd (pyUpper (pyStrip t)) d ei e] := hr
        simp only [List.mem_cons, List.not_mem_nil, or_false] at hr2
        rcases hr2 with rfl | rfl | rfl | rfl | rfl | rfl
        · exact amended_of_running _ 10 (by decide) _
        · exact amended_of_running _ 20 (by decide) _
        · exact amended_of_running _ 30 (by decide) _
        · exact amended_of_running _ 40 (by decide) _
        · exact amended_of_running _ 90 (by decide) _
        · exact amended_of_error _ dd d ei e
      | none =>
        intro r hr
        have hr2 : r ∈ [runningRec (pyUpper (pyStrip t)) 10 "Starting analysis...",
            runningRec (pyUpper (pyStrip t)) 20 "Clearing ChromaDB collections...",
            runningRec (pyUpper (pyStrip t)) 30 "Initializing trading agents...",
            runningRec (pyUpper (pyStrip t)) 40
              ("Running multi-agent analysis for " ++ pyUpper (pyStrip t) ++ "..."),
            runningRec (pyUpper (pyStrip t)) 90 "Formatting results...",
            completeRec (pyUpper (pyStrip t))
              (mkDisplayResult (pyUpper (pyStrip t)) d g1 dec (computeAnalysisText go))
              ("/tmp/" ++ pyUpper (pyStrip t) ++ "_" ++ d ++ "_latest.md")] := hr
        simp only [List.mem_cons, List.not_mem_nil, or_false] at hr2
        rcases hr2 with rfl | rfl | rfl | rfl | rfl | rfl
        · exact amended_of_running _ 10 (by decide) _
        · exact amended_of_running _ 20 (by decide) _
        · exact amended_of_running _ 30 (by decide) _
        · exact amended_of_running _ 40 (by decide) _
        · exact amended_of_running _ 90 (by decide) _
        · exact amended_of_complete _ _ _

/-- C7 amended witness: evaluation on the first record of a successful
concrete run. -/
theorem c7_record_fields_amended_witness :
    (runningRec "SPY" 10 "Starting analysis..."
        ∈ (analyze_stock_async envOk "/tmp" "spy" "2025-10-15" "s7w").statusWrites)
    ∧ c7AmendedRecord (pyUpper (pyStrip "spy"))
        (runningRec "SPY" 10 "Starting analysis...") :=
  ⟨List.mem_cons_self _ _,
   c7_record_fields_amended envOk "/tmp" "spy" "2025-10-15" "s7w"
     (runningRec "SPY" 10 "Starting analysis...") (List.mem_cons_self _ _)⟩

/-- C8: when only the archive write fails, `save_analysis` swallows the
exception and returns `false`, no archive record is produced, and the
worker still writes the terminal `complete` record. -/
theorem c8_archive_failure_swallowed (env : Env) (dd t d sid : String)
    (go : GraphOutput) (dec : String)
    (he : env.engineExc = none) (hp : env.propagateResult = .ok (go, dec))
    (ht : env.tempExc = none) (hs : env.saveExc.isSome = true) :
    c8Conclusion env dd t d sid := by
  obtain ⟨ce, ee, pr, g1, g2, a1, a2, se, te, ei⟩ := env
  obtain rfl : ee = none := he
  obtain rfl : pr = Except.ok (go, dec) := hp
  obtain rfl : te = none := ht
  cases se with
  | none => simp at hs
  | some e2 => exact ⟨⟨_, rfl, rfl⟩, rfl, fun rt => rfl⟩

/-- C8 witness: a concrete run whose archive write fails. -/
theorem c8_archive_failure_swallowed_witness :
    envSaveFail.engineExc = none
    ∧ envSaveFail.propagateResult = .ok (.other "RAWOUT", "BUY")
    ∧ envSaveFail.tempExc = none
    ∧ envSaveFail.saveExc.isSome = true
    ∧ c8Conclusion envSaveFail "/tmp" "spy" "2025-10-15" "s8" :=
  ⟨rfl, rfl, rfl, rfl,
   c8_archive_failure_swallowed envSaveFail "/tmp" "spy" "2025-10-15" "s8"
     (.other "RAWOUT") "BUY" rfl rfl rfl rfl⟩

/-- C9: with a valid ticker, `start_analysis` leaves the store untouched
and only schedules the worker with the raw arguments; the poller leaves
any store untouched on any input; and the worker's status writes target
its own session key only, leaving every other session's file unchanged. -/
theorem c9_controller_frame (t d sid : String) (st : SysState)
    (h : ¬ (t = "" ∨ pyStrip t = "")) :
    c9Conclusion t d sid st := by
  refine ⟨?_, ?_, ?_, check_state_fixed, ?_⟩
  · simp [start_analysis, h]
  · simp [start_analysis, h]
  · simp [start_analysis, h]
  · intro env dd
    refine ⟨worker_writes_own_key env dd t d sid, ?_⟩
    intro stW k hk
    simp [applyWorkerRun, worker_writes_own_key, hk]

/-- C9 witness: a valid concrete ticker. -/
theorem c9_controller_frame_witness :
    ¬ (("spy" : String) = "" ∨ pyStrip "spy" = "")
    ∧ c9Conclusion "spy" "2025-10-15" "s9" stEmpty :=
  ⟨by decide, c9_controller_frame "spy" "2025-10-15" "s9" stEmpty (by decide)⟩

/-- The archive filename stem `ticker_date_timestamp` is never empty. -/
theorem archive_filename_ne_empty (tk d a1 : String) :
    tk ++ "_" ++ d ++ "_" ++ a1 ≠ "" := by
  intro h
  have h2 := congrArg String.length h
  simp only [String.length_append] at h2
  have h3 : ("_" : String).length = 1 := rfl
  have h4 : ("" : String).length = 0 := rfl
  rw [h3, h4] at h2
  omega

set_option maxHeartbeats 1000000 in
/-- Retrieving a freshly archived record returns its stored result. -/
theorem load_after_run (run : WorkerRun) (st : SysState) (ar : ArchiveRecord)
    (hA : st.archive = []) (hw : run.archiveWrites = [ar]) (hne : ar.filename ≠ "") :
    load_analysis_content (applyWorkerRun run st) (some ar.filename) = ar.result := by
  have h2 : (applyWorkerRun run st).archive = [ar] := by
    simp [applyWorkerRun, hA, hw]
  simp [load_analysis_content, h2, hne]

/-- C10: on a fully successful run whose two sampled generation
timestamps render identically, the text stored in the `complete` record
(and in the download artifact) equals the archived text followed by the
fixed storage footer — hence is not identical to it — and retrieving the
archived run later returns the shorter archived text. -/
theorem c10_display_vs_archive (env : Env) (dd t d sid : String)
    (go : GraphOutput) (dec : String)
    (he : env.engineExc = none) (hp : env.propagateResult = .ok (go, dec))
    (ht : env.tempExc = none) (hs : env.saveExc = none)
    (hg : env.genTimeDisplay = env.genTimeSave) :
    c10Conclusion env dd t d sid := by
  obtain ⟨ce, ee, pr, g1, g2, a1, a2, se, te, ei⟩ := env
  obtain rfl : ee = none := he
  obtain rfl : pr = Except.ok (go, dec) := hp
  obtain rfl : te = none := ht
  obtain rfl : se = none := hs
  obtain rfl : g1 = g2 := hg
  refine ⟨completeRec (pyUpper (pyStrip t))
      (mkDisplayResult (pyUpper (pyStrip t)) d g1 dec (computeAnalysisText go))
      ("/tmp/" ++ pyUpper (pyStrip t) ++ "_" ++ d ++ "_latest.md"),
    { filename := pyUpper (pyStrip t) ++ "_" ++ d ++ "_" ++ a1,
      ticker := pyUpper (pyStrip t), analysis_date := d, timestamp := a2,
      result := mkSaveResult (pyUpper (pyStrip t)) d g1 dec (computeAnalysisText go) },
    rfl, rfl, rfl, ?_, ?_, ?_, ?_⟩
  · exact congrArg some
      (display_eq_save_append_footer (pyUpper (pyStrip t)) d g1 dec (computeAnalysisText go))
  · intro hEq
    have h1 : mkDisplayResult (pyUpper (pyStrip t)) d g1 dec (computeAnalysisText go)
        = mkSaveResult (pyUpper (pyStrip t)) d g1 dec (computeAnalysisText go) :=
      Option.some.inj hEq
    have h2 := (display_eq_save_append_footer (pyUpper (pyStrip t)) d g1 dec
      (computeAnalysisText go)).symm.trans h1
    have h4 := congrArg String.length h2
    rw [String.length_append] at h4
    have h5 : storageFooter.length ≠ 0 := by decide
    omega
  · exact congrArg (fun s => [("/tmp/" ++ pyUpper (pyStrip t) ++ "_" ++ d ++ "_latest.md", s)])
      (display_eq_save_append_footer (pyUpper (pyStrip t)) d g1 dec
        (computeAnalysisText go))
  · intro st hA
    exact load_after_run _ st _ hA rfl (archive_filename_ne_empty _ _ _)

/-- C10 witness: a concrete fully successful run. -/
theorem c10_display_vs_archive_witness :
    envOk.engineExc = none
    ∧ envOk.propagateResult = .ok (.other "RAWOUT", "BUY")
    ∧ envOk.tempExc = none
    ∧ envOk.saveExc = none
    ∧ envOk.genTimeDisplay = envOk.genTimeSave
    ∧ c10Conclusion envOk "/tmp" "spy" "2025-10-15" "s10" :=
  ⟨rfl, rfl, rfl, rfl, rfl,
   c10_display_vs_archive envOk "/tmp" "spy" "2025-10-15" "s10"
     (.other "RAWOUT") "BUY" rfl rfl rfl rfl rfl⟩
